import Mathlib

/-!
Verification development for the `xiaomi-ble` MiBeacon / MiScale decoders.

The Rust sources are shallowly embedded:

* Byte buffers are `List Nat` (each entry is one byte, `0 ≤ b ≤ 255` on real
  inputs; the embedding never depends on an upper bound).
* The `binrw`-based readers become total functions `List Nat → PRes α`.
  A successful read returns the parsed value together with the number of
  consumed bytes.  Failures are split in two classes, mirroring
  `binrw::Error::is_eof()`: `eofErr` models an `Io(UnexpectedEof)` error
  (possibly wrapped in backtrace frames), `failErr` models every other
  error (failed `assert`, bad magic/`repr` byte, and `EnumErrors` produced
  when no variant of a `#[derive(BinRead)]` enum matches — `is_eof()` is
  false for `EnumErrors`, so an enum whose variants all failed is never
  treated as a clean end of stream by `until_eof`).
* `f64` sensor values are modelled as exact rationals (`ℚ`); every scaling
  factor in the source is an exact decimal literal, so `0.005` etc. denote
  the corresponding rationals.
-/

/-- Result of one `binrw` read on a byte buffer: either a value plus the
number of consumed bytes, an end-of-input error (`Io(UnexpectedEof)`,
`is_eof() = true`), or any other parse error (`is_eof() = false`). -/
inductive PRes (α : Type) where
  | ok (value : α) (consumed : Nat)
  | eofErr
  | failErr
deriving DecidableEq

/-- Read a single byte (`u8`). -/
def readU8 : List Nat → PRes Nat
  | [] => .eofErr
  | b :: _ => .ok b 1

/-- Read a little-endian `u16`. -/
def readU16le : List Nat → PRes Nat
  | b0 :: b1 :: _ => .ok (b0 + 256 * b1) 2
  | _ => .eofErr

/-- Read a little-endian `i16` as a mathematical integer. -/
def readI16le : List Nat → PRes Int
  | b0 :: b1 :: _ =>
      let raw := b0 + 256 * b1
      .ok (if raw < 32768 then (raw : Int) else (raw : Int) - 65536) 2
  | _ => .eofErr

/-- Read a little-endian 3-byte unsigned integer (the `U24` helper:
`self.0[2] << 16 | self.0[1] << 8 | self.0[0]`). -/
def readU24le : List Nat → PRes Nat
  | b0 :: b1 :: b2 :: _ => .ok (b0 + 256 * b1 + 65536 * b2) 3
  | _ => .eofErr

/-- Read a little-endian `u32`. -/
def readU32le : List Nat → PRes Nat
  | b0 :: b1 :: b2 :: b3 :: _ =>
      .ok (b0 + 256 * b1 + 65536 * b2 + 16777216 * b3) 4
  | _ => .eofErr

/-- Sequence two reads: run `p`, drop the consumed bytes, run `f` on the rest,
and add up the consumed counts. -/
def pbind {α β : Type} (p : List Nat → PRes α) (f : α → List Nat → PRes β) :
    List Nat → PRes β := fun buf =>
  match p buf with
  | .ok a k =>
      match f a (buf.drop k) with
      | .ok b k2 => .ok b (k + k2)
      | .eofErr => .eofErr
      | .failErr => .failErr
  | .eofErr => .eofErr
  | .failErr => .failErr

/-- Map a function over a successful read. -/
def pmap {α β : Type} (f : α → β) (p : List Nat → PRes α) :
    List Nat → PRes β := fun buf =>
  match p buf with
  | .ok a k => .ok (f a) k
  | .eofErr => .eofErr
  | .failErr => .failErr

/-- A read that consumes nothing and returns `a` (used for absent optional
trailing fields). -/
def ppure {α : Type} (a : α) : List Nat → PRes α := fun _ => .ok a 0

/-- A `#[br(assert(cond))]` on an enum variant: the fields are read first and
the variant then fails (with a non-EOF `AssertFail` error) when the condition
is false. -/
def withAssert {α : Type} (b : Bool) (p : List Nat → PRes α) :
    List Nat → PRes α := fun buf =>
  match p buf with
  | .ok v k => if b then .ok v k else .failErr
  | .eofErr => .eofErr
  | .failErr => .failErr

/-- Try the first variant; on any failure rewind and use the second
parse attempt (the `binrw` enum strategy of trying variants in declaration
order). -/
def tryOr {α : Type} (r next : PRes α) : PRes α :=
  match r with
  | .ok v k => .ok v k
  | .eofErr => next
  | .failErr => next

/-- When every variant of a `#[derive(BinRead)]` enum failed, the resulting
`EnumErrors` value is a non-EOF error regardless of the individual variant
errors. -/
def enumFinish {α : Type} (r : PRes α) : PRes α :=
  match r with
  | .ok v k => .ok v k
  | .eofErr => .failErr
  | .failErr => .failErr

/-- Read one byte and map it through a partial decoding table (the embedding
of a `#[br(repr(u8))]` enum: an unlisted byte is a non-EOF error). -/
def readMapU8 {α : Type} (f : Nat → Option α) : List Nat → PRes α
  | [] => .eofErr
  | b :: _ =>
      match f b with
      | some v => .ok v 1
      | none => .failErr

/-- Extract bit `k` of a byte (the mask/shift accessor generated for the
`modular_bitfield` structs: bit 0 is the least significant bit of the first
byte). -/
def bitAt (n k : Nat) : Bool := n / 2 ^ k % 2 == 1

/-! ## Sensor abstraction (`sensor.rs`) -/

/-- Measurement type for binary sensors. -/
inductive BinaryMeasurementType where
  | power
  | sleep
  | binding
  | switchState
  | waterImmersion
  | gasLeak
  | light
deriving DecidableEq

/-- Measurement type for numeric sensors. -/
inductive NumericMeasurementType where
  | temperature
  | humidity
  | illuminance
  | moisture
  | conductivity
  | formaldehydeConcentration
  | remainingSupplies
  | batteryPower
  | weight
  | impedance
deriving DecidableEq

/-- The unit of measurement. -/
inductive UnitOfMeasurement where
  | degreesCelsius
  | percent
  | lux
  | microsiemensPerCentimeter
  | milligramPerCubicMeter
  | seconds
  | kilogram
  | ohm
deriving DecidableEq

/-- A measured sensor value; `f64` values are modelled as exact rationals. -/
inductive SensorEvent where
  | binaryMeasurement (measurementType : BinaryMeasurementType) (value : Bool)
  | numericMeasurement (measurementType : NumericMeasurementType) (value : ℚ)
      (unit : UnitOfMeasurement)
deriving DecidableEq

/-! ## MiBeacon payload sub-structures (`mibeacon.rs`) -/

/-- Key ID of a Fingerprint Event (a magic-based enum over a `u32`). -/
inductive FingerprintEventKeyId where
  | lockAdministrator
  | unknownOperator
  | keyId (v : Nat)
deriving DecidableEq

/-- Read a `FingerprintEventKeyId`: magic `0x00000000`, magic `0xFFFFFFFF`,
otherwise the raw `u32`. -/
def pFingerprintEventKeyId : List Nat → PRes FingerprintEventKeyId := fun buf =>
  match readU32le buf with
  | .ok v k =>
      if v = 0 then .ok .lockAdministrator k
      else if v = 4294967295 then .ok .unknownOperator k
      else .ok (.keyId v) k
  | .eofErr => .eofErr
  | .failErr => .failErr

/-- Matching Result of a Fingerprint Event. -/
inductive FingerprintEventMatchingResult where
  | matchingSuccessful
  | matchingFailed
  | timeout
  | lowQuality
  | insufficientArea
  | skinTooDry
  | skinTooWet
deriving DecidableEq

/-- Byte table for `FingerprintEventMatchingResult` (`repr(u8)`, 0x00–0x06). -/
def fingerprintMatchingResultOfByte (b : Nat) : Option FingerprintEventMatchingResult :=
  if b = 0 then some .matchingSuccessful
  else if b = 1 then some .matchingFailed
  else if b = 2 then some .timeout
  else if b = 3 then some .lowQuality
  else if b = 4 then some .insufficientArea
  else if b = 5 then some .skinTooDry
  else if b = 6 then some .skinTooWet
  else none

/-- Door Event status. -/
inductive DoorEvent where
  | doorOpened
  | doorClosed
  | doorCloseTimeout
  | knockingOnTheDoor
  | pryingTheDoorOpen
  | doorStuck
deriving DecidableEq

/-- Byte table for `DoorEvent` (`repr(u8)`, 0x00–0x05). -/
def doorEventOfByte (b : Nat) : Option DoorEvent :=
  if b = 0 then some .doorOpened
  else if b = 1 then some .doorClosed
  else if b = 2 then some .doorCloseTimeout
  else if b = 3 then some .knockingOnTheDoor
  else if b = 4 then some .pryingTheDoorOpen
  else if b = 5 then some .doorStuck
  else none

/-- Arming Event status field. -/
inductive ArmingEventStatus where
  | armed
  | disarmed
deriving DecidableEq

/-- Byte table for `ArmingEventStatus` (`repr(u8)`, 0x00–0x01). -/
def armingEventStatusOfByte (b : Nat) : Option ArmingEventStatus :=
  if b = 0 then some .armed
  else if b = 1 then some .disarmed
  else none

/-- Gesture Type of a Gesture Event (`repr(u16)`, little-endian). -/
inductive Gesture where
  | shake
  | flipNinetyDegrees
  | flipOneHundredEightyDegrees
  | planeRotation
  | knock
  | nudge
deriving DecidableEq

/-- Word table for `Gesture` (0x0001–0x0006). -/
def gestureOfWord (v : Nat) : Option Gesture :=
  if v = 1 then some .shake
  else if v = 2 then some .flipNinetyDegrees
  else if v = 3 then some .flipOneHundredEightyDegrees
  else if v = 4 then some .planeRotation
  else if v = 5 then some .knock
  else if v = 6 then some .nudge
  else none

/-- Read a `Gesture` (a little-endian `u16` whose value must be listed). -/
def pGesture : List Nat → PRes Gesture := fun buf =>
  match readU16le buf with
  | .ok v k =>
      match gestureOfWord v with
      | some g => .ok g k
      | none => .failErr
  | .eofErr => .eofErr
  | .failErr => .failErr

/-- Operation field of a Lock Event: lower 4 bits are the action, upper 4
bits the method. -/
structure LockEventOperation where
  operationAction : Nat
  operationMethod : Nat
deriving DecidableEq

/-- Decode a `LockEventOperation` byte (a `modular_bitfield` struct; every
byte value is valid). -/
def lockEventOperationFromByte (b : Nat) : LockEventOperation :=
  { operationAction := b % 16, operationMethod := b / 16 % 16 }

/-- Lock Event payload: operation byte, key id (`u32`), UTC timestamp
(`u32`). -/
structure LockEvent where
  operation : LockEventOperation
  keyId : Nat
  timestamp : Nat
deriving DecidableEq

/-- Flooding Alarm Event payload. -/
inductive FloodingAlarmEvent where
  | alarmCleared
  | alarm
deriving DecidableEq

/-- Byte table for `FloodingAlarmEvent` (`repr(u8)`, 0x00–0x01). -/
def floodingAlarmEventOfByte (b : Nat) : Option FloodingAlarmEvent :=
  if b = 0 then some .alarmCleared
  else if b = 1 then some .alarm
  else none

/-- Smoke Alarm Event payload. -/
inductive SmokeAlarmEvent where
  | normal
  | fireAlarm
  | equipmentFailure
  | equipmentSelfTest
  | analogAlarm
deriving DecidableEq

/-- Byte table for `SmokeAlarmEvent` (`repr(u8)`, 0x00–0x04). -/
def smokeAlarmEventOfByte (b : Nat) : Option SmokeAlarmEvent :=
  if b = 0 then some .normal
  else if b = 1 then some .fireAlarm
  else if b = 2 then some .equipmentFailure
  else if b = 3 then some .equipmentSelfTest
  else if b = 4 then some .analogAlarm
  else none

/-- Gas Alarm Event payload. -/
inductive GasAlarmEvent where
  | normal
  | gasLeakAlarm
  | equipmentFailure
  | sensorLifeExpiration
  | sensorPreheating
  | equipmentSelfTest
  | analogAlarm
deriving DecidableEq

/-- Byte table for `GasAlarmEvent` (`repr(u8)`, 0x00–0x06). -/
def gasAlarmEventOfByte (b : Nat) : Option GasAlarmEvent :=
  if b = 0 then some .normal
  else if b = 1 then some .gasLeakAlarm
  else if b = 2 then some .equipmentFailure
  else if b = 3 then some .sensorLifeExpiration
  else if b = 4 then some .sensorPreheating
  else if b = 5 then some .equipmentSelfTest
  else if b = 6 then some .analogAlarm
  else none

/-- Toothbrush Event Type (`repr(u8)`, implicit discriminants 0 and 1). -/
inductive ToothbrushEventType where
  | brushingStarted
  | brushingEnded
deriving DecidableEq

/-- Byte table for `ToothbrushEventType`. -/
def toothbrushEventTypeOfByte (b : Nat) : Option ToothbrushEventType :=
  if b = 0 then some .brushingStarted
  else if b = 1 then some .brushingEnded
  else none

/-- Maoyan Doorbell Camera Event payload. -/
inductive DoorbellCameraEvent where
  | someoneIsStaying
  | someoneIsPassingBy
  | someoneIsRingingTheBell
  | someoneIsLeavingAMessage
  | equipmentDamage
  | duressAlarm
  | abnormalUnlocking
deriving DecidableEq

/-- Byte table for `DoorbellCameraEvent` (`repr(u8)`, 0x00–0x06). -/
def doorbellCameraEventOfByte (b : Nat) : Option DoorbellCameraEvent :=
  if b = 0 then some .someoneIsStaying
  else if b = 1 then some .someoneIsPassingBy
  else if b = 2 then some .someoneIsRingingTheBell
  else if b = 3 then some .someoneIsLeavingAMessage
  else if b = 4 then some .equipmentDamage
  else if b = 5 then some .duressAlarm
  else if b = 6 then some .abnormalUnlocking
  else none

/-- Weighing Event Type. -/
inductive WeighingEventType where
  | currentWeight
  | reducedWeight
  | increasedWeight
deriving DecidableEq

/-- Byte table for `WeighingEventType` (`repr(u8)`, 0x00–0x02). -/
def weighingEventTypeOfByte (b : Nat) : Option WeighingEventType :=
  if b = 0 then some .currentWeight
  else if b = 1 then some .reducedWeight
  else if b = 2 then some .increasedWeight
  else none

/-- Button Event Type. -/
inductive ButtonEventType where
  | singleClick
  | doubleClick
  | longPress
  | tripleClick
deriving DecidableEq

/-- Byte table for `ButtonEventType` (`repr(u8)`, 0x00–0x03). -/
def buttonEventTypeOfByte (b : Nat) : Option ButtonEventType :=
  if b = 0 then some .singleClick
  else if b = 1 then some .doubleClick
  else if b = 2 then some .longPress
  else if b = 3 then some .tripleClick
  else none

/-- Sleep State. -/
inductive SleepState where
  | notSleeping
  | asleep
deriving DecidableEq

/-- Byte table for `SleepState` (`repr(u8)`, 0x00–0x01). -/
def sleepStateOfByte (b : Nat) : Option SleepState :=
  if b = 0 then some .notSleeping
  else if b = 1 then some .asleep
  else none

/-- Lock State (a `modular_bitfield` struct over one byte; every byte value
is valid). -/
structure LockState where
  tongueEjected : Bool
  deadTongueEjected : Bool
  latchEjected : Bool
  childLockEjected : Bool
  reserved : Nat
deriving DecidableEq

/-- Decode a `LockState` byte. -/
def lockStateFromByte (b : Nat) : LockState :=
  { tongueEjected := bitAt b 0, deadTongueEjected := bitAt b 1,
    latchEjected := bitAt b 2, childLockEjected := bitAt b 3,
    reserved := b / 16 % 16 }

/-- Door State. -/
inductive DoorState where
  | open
  | closed
  | abnormal
deriving DecidableEq

/-- Byte table for `DoorState` (`repr(u8)`, 0x00, 0x01, 0xFF). -/
def doorStateOfByte (b : Nat) : Option DoorState :=
  if b = 0 then some .open
  else if b = 1 then some .closed
  else if b = 255 then some .abnormal
  else none

/-- Binding State. -/
inductive BindingState where
  | unbound
  | bound
deriving DecidableEq

/-- Byte table for `BindingState` (`repr(u8)`, 0x00–0x01). -/
def bindingStateOfByte (b : Nat) : Option BindingState :=
  if b = 0 then some .unbound
  else if b = 1 then some .bound
  else none

/-- Switch State. -/
inductive SwitchState where
  | disabled
  | enabled
deriving DecidableEq

/-- Byte table for `SwitchState` (`repr(u8)`, 0x00–0x01). -/
def switchStateOfByte (b : Nat) : Option SwitchState :=
  if b = 0 then some .disabled
  else if b = 1 then some .enabled
  else none

/-- Water Immersion State. -/
inductive WaterImmersionState where
  | notSubmerged
  | submerged
deriving DecidableEq

/-- Byte table for `WaterImmersionState` (`repr(u8)`, 0x00–0x01). -/
def waterImmersionStateOfByte (b : Nat) : Option WaterImmersionState :=
  if b = 0 then some .notSubmerged
  else if b = 1 then some .submerged
  else none

/-- Smoke Detection State. -/
inductive SmokeDetectionState where
  | normal
  | fireAlarm
  | equipmentFailure
deriving DecidableEq

/-- Byte table for `SmokeDetectionState` (`repr(u8)`, 0x00–0x02). -/
def smokeDetectionStateOfByte (b : Nat) : Option SmokeDetectionState :=
  if b = 0 then some .normal
  else if b = 1 then some .fireAlarm
  else if b = 2 then some .equipmentFailure
  else none

/-- Gas Leakage Detection State. -/
inductive GasLeakageDetectionState where
  | leakage
  | noLeakage
deriving DecidableEq

/-- Byte table for `GasLeakageDetectionState` (`repr(u8)`, 0x00–0x01). -/
def gasLeakageDetectionStateOfByte (b : Nat) : Option GasLeakageDetectionState :=
  if b = 0 then some .leakage
  else if b = 1 then some .noLeakage
  else none

/-- Light Intensity State. -/
inductive LightIntensityState where
  | dark
  | light
deriving DecidableEq

/-- Byte table for `LightIntensityState` (`repr(u8)`, 0x00–0x01). -/
def lightIntensityStateOfByte (b : Nat) : Option LightIntensityState :=
  if b = 0 then some .dark
  else if b = 1 then some .light
  else none

/-- Door Sensor State. -/
inductive DoorSensorState where
  | doorOpen
  | doorClosed
  | timeout
  | deviceReset
deriving DecidableEq

/-- Byte table for `DoorSensorState` (`repr(u8)`, 0x00–0x03). -/
def doorSensorStateOfByte (b : Nat) : Option DoorSensorState :=
  if b = 0 then some .doorOpen
  else if b = 1 then some .doorClosed
  else if b = 2 then some .timeout
  else if b = 3 then some .deviceReset
  else none

/-- Movement Detection State. -/
inductive MovementDetectionState where
  | movementDetectedWithinTimeframe
  | noMovementDetectedWithinTimeframe
deriving DecidableEq

/-- Byte table for `MovementDetectionState` (`repr(u8)`, 0x00–0x01). -/
def movementDetectionStateOfByte (b : Nat) : Option MovementDetectionState :=
  if b = 0 then some .movementDetectedWithinTimeframe
  else if b = 1 then some .noMovementDetectedWithinTimeframe
  else none

/-- Smart Pillow State: magic 0x00 and 0x01, every other byte is kept in the
`reserved` fallback case. -/
inductive SmartPillowState where
  | outOfBed
  | inBed
  | reserved (b : Nat)
deriving DecidableEq

/-- Decode a `SmartPillowState` byte (total: the last variant is a raw
fallback). -/
def smartPillowStateOfByte (b : Nat) : SmartPillowState :=
  if b = 0 then .outOfBed
  else if b = 1 then .inBed
  else .reserved b

/-- Huami Mi Band Sleep State. -/
inductive MiBandSleepState where
  | none
  | fallAsleep
  | wakeUp
deriving DecidableEq

/-- Byte table for `MiBandSleepState` (`repr(u8)`, 0x00–0x02). -/
def miBandSleepStateOfByte (b : Nat) : Option MiBandSleepState :=
  if b = 0 then some .none
  else if b = 1 then some .fallAsleep
  else if b = 2 then some .wakeUp
  else none

/-- Roidmi Vacuum Cleaner State. -/
inductive RoidmiVacuumCleanerState where
  | charging
  | standby
  | standard
  | strong
  | abnormal
deriving DecidableEq

/-- Byte table for `RoidmiVacuumCleanerState` (`repr(u8)`, 0x00–0x03 and
0xFF). -/
def roidmiVacuumCleanerStateOfByte (b : Nat) : Option RoidmiVacuumCleanerState :=
  if b = 0 then some .charging
  else if b = 1 then some .standby
  else if b = 2 then some .standard
  else if b = 3 then some .strong
  else if b = 255 then some .abnormal
  else none

/-- Flower and Grass Detector Event. -/
inductive FlowerAndGrassDetectorEvent where
  | normal
  | unplugged
deriving DecidableEq

/-- Byte table for `FlowerAndGrassDetectorEvent` (`repr(u8)`, 0x00–0x01). -/
def flowerAndGrassDetectorEventOfByte (b : Nat) : Option FlowerAndGrassDetectorEvent :=
  if b = 0 then some .normal
  else if b = 1 then some .unplugged
  else none

/-- Quingping Sensor Location Event. -/
inductive QuingpingSensorLocationEvent where
  | separatedFromBase
  | connected
deriving DecidableEq

/-- Byte table for `QuingpingSensorLocationEvent` (`repr(u8)`, 0x00–0x01). -/
def quingpingSensorLocationEventOfByte (b : Nat) : Option QuingpingSensorLocationEvent :=
  if b = 0 then some .separatedFromBase
  else if b = 1 then some .connected
  else none

/-- Quingping Pomodoro Event. -/
inductive QuingpingPomodoroEvent where
  | start
  | ending
  | startOfBreak
  | endOfBreak
deriving DecidableEq

/-- Byte table for `QuingpingPomodoroEvent` (`repr(u8)`, 0x00–0x03). -/
def quingpingPomodoroEventOfByte (b : Nat) : Option QuingpingPomodoroEvent :=
  if b = 0 then some .start
  else if b = 1 then some .ending
  else if b = 2 then some .startOfBreak
  else if b = 3 then some .endOfBreak
  else none

/-! ## The MiBeacon object payload (`MiBeaconObjectPayload`) -/

/-- Parsed payload of a MiBeacon object (one constructor per `binrw` enum
variant, in declaration order; `unknown` is the raw-bytes fallback). -/
inductive MiBeaconObjectPayload where
  | connectEvent (v : Nat)
  | simplePairingEvent (v : Nat)
  | proximityEvent (v : Nat)
  | keepAwayEvent (v : Nat)
  | lockEventDeprecated (v : Nat)
  | fingerprintEvent (keyId : FingerprintEventKeyId)
      (matchingResult : FingerprintEventMatchingResult)
  | doorEvent (e : DoorEvent)
  | armingEvent (status : ArmingEventStatus) (timestamp : Option Nat)
  | gestureEvent (g : Gesture)
  | bodyTemperatureEvent (v : Int)
  | lockEvent (e : LockEvent)
  | floodingAlarmEvent (e : FloodingAlarmEvent)
  | smokeAlarmEvent (e : SmokeAlarmEvent)
  | gasAlarmEvent (e : GasAlarmEvent)
  | movementAlarmWithIlluminanceEvent (v : Nat)
  | toothbrushEvent (eventType : ToothbrushEventType) (scope : Option Nat)
  | doorbellCameraEvent (e : DoorbellCameraEvent)
  | weighingEvent (weight : Nat) (weighingType : WeighingEventType)
  | buttonEvent (index : Nat) (eventType : ButtonEventType)
  | sleep (s : SleepState)
  | rssi (v : Nat)
  | temperature (v : Int)
  | powerAndTemperature (power : Nat) (temperature : Nat)
  | humidity (v : Nat)
  | illuminance (v : Nat)
  | moisture (v : Nat)
  | conductivity (v : Nat)
  | batteryPower (v : Nat)
  | lock (s : LockState)
  | door (s : DoorState)
  | formaldehydeConcentration (v : Nat)
  | binding (s : BindingState)
  | switchState (s : SwitchState)
  | remainingSupplies (v : Nat)
  | waterImmersion (s : WaterImmersionState)
  | smokeDetection (s : SmokeDetectionState)
  | gasLeakageDetection (s : GasLeakageDetectionState)
  | timeWithoutMotion (v : Nat)
  | lightIntensity (s : LightIntensityState)
  | doorSensor (s : DoorSensorState)
  | weight (v : Nat)
  | movementDetection (s : MovementDetectionState)
  | smartPillow (s : SmartPillowState)
  | formaldehydeConcentrationNew (v : Nat)
  | bodyTemperature (skinTemperature : Nat) (pcbTemperature : Nat)
      (batteryPower : Nat)
  | miBand (stepCount : Nat) (sleepState : MiBandSleepState) (rssi : Nat)
  | roidmiVacuumCleaner (status : RoidmiVacuumCleanerState) (gear : Nat)
  | blackPlusBracelet (stepCount : Nat) (heartRate : Nat) (state : Nat)
  | flowerAndGrassDetectorEvent (e : FlowerAndGrassDetectorEvent)
  | quingpingSensorLocationEvent (e : QuingpingSensorLocationEvent)
  | quingpingPomodoroEvent (e : QuingpingPomodoroEvent)
  | xiaobelToothbrushEvent (eventType : ToothbrushEventType) (timestamp : Nat)
      (score : Option Nat)
  | unknown (bytes : List Nat)

/-! Per-variant readers.  Each mirrors one `binrw` enum variant: the fields
are read in order and the variant's `#[br(assert(..))]` length condition is
checked via `withAssert` (outermost, since a failed assertion fails the whole
variant).  The `#[br(pre_assert(id == ..))]` dispatch is done in
`parseKnown` below. -/

/-- Variant `ConnectEvent` (id 0x0001, length 2). -/
def pConnectEvent (length : Nat) : List Nat → PRes MiBeaconObjectPayload :=
  withAssert (length == 2) (pmap .connectEvent readU16le)

/-- Variant `SimplePairingEvent` (id 0x0002, length 2). -/
def pSimplePairingEvent (length : Nat) : List Nat → PRes MiBeaconObjectPayload :=
  withAssert (length == 2) (pmap .simplePairingEvent readU16le)

/-- Variant `ProximityEvent` (id 0x0003, length 2). -/
def pProximityEvent (length : Nat) : List Nat → PRes MiBeaconObjectPayload :=
  withAssert (length == 2) (pmap .proximityEvent readU16le)

/-- Variant `KeepAwayEvent` (id 0x0004, length 2). -/
def pKeepAwayEvent (length : Nat) : List Nat → PRes MiBeaconObjectPayload :=
  withAssert (length == 2) (pmap .keepAwayEvent readU16le)

/-- Variant `LockEventDeprecated` (id 0x0005, length 2). -/
def pLockEventDeprecated (length : Nat) : List Nat → PRes MiBeaconObjectPayload :=
  withAssert (length == 2) (pmap .lockEventDeprecated readU16le)

/-- Variant `FingerprintEvent` (id 0x0006, length 5). -/
def pFingerprintEvent (length : Nat) : List Nat → PRes MiBeaconObjectPayload :=
  withAssert (length == 5)
    (pbind pFingerprintEventKeyId fun kid =>
      pmap (fun mr => .fingerprintEvent kid mr)
        (readMapU8 fingerprintMatchingResultOfByte))

/-- Variant `DoorEvent` (id 0x0007, length 1). -/
def pDoorEvent (length : Nat) : List Nat → PRes MiBeaconObjectPayload :=
  withAssert (length == 1) (pmap .doorEvent (readMapU8 doorEventOfByte))

/-- Variant `ArmingEvent` (id 0x0008, length 1 or 5; the UTC timestamp is
present iff the length is 5). -/
def pArmingEvent (length : Nat) : List Nat → PRes MiBeaconObjectPayload :=
  withAssert (length == 1 || length == 5)
    (pbind (readMapU8 armingEventStatusOfByte) fun st =>
      if length == 5 then pmap (fun ts => .armingEvent st (some ts)) readU32le
      else ppure (.armingEvent st none))

/-- Variant `GestureEvent` (id 0x0009, length 2). -/
def pGestureEvent (length : Nat) : List Nat → PRes MiBeaconObjectPayload :=
  withAssert (length == 2) (pmap .gestureEvent pGesture)

/-- Variant `BodyTemperatureEvent` (id 0x000A, length 2). -/
def pBodyTemperatureEvent (length : Nat) : List Nat → PRes MiBeaconObjectPayload :=
  withAssert (length == 2) (pmap .bodyTemperatureEvent readI16le)

/-- Variant `LockEvent` (id 0x000B, length 9). -/
def pLockEvent (length : Nat) : List Nat → PRes MiBeaconObjectPayload :=
  withAssert (length == 9)
    (pbind (pmap lockEventOperationFromByte readU8) fun op =>
      pbind readU32le fun kid =>
        pmap (fun ts => .lockEvent { operation := op, keyId := kid, timestamp := ts })
          readU32le)

/-- Variant `FloodingAlarmEvent` (id 0x000C, length 1). -/
def pFloodingAlarmEvent (length : Nat) : List Nat → PRes MiBeaconObjectPayload :=
  withAssert (length == 1) (pmap .floodingAlarmEvent (readMapU8 floodingAlarmEventOfByte))

/-- Variant `SmokeAlarmEvent` (id 0x000D, length 1). -/
def pSmokeAlarmEvent (length : Nat) : List Nat → PRes MiBeaconObjectPayload :=
  withAssert (length == 1) (pmap .smokeAlarmEvent (readMapU8 smokeAlarmEventOfByte))

/-- Variant `GasAlarmEvent` (id 0x000E, length 1). -/
def pGasAlarmEvent (length : Nat) : List Nat → PRes MiBeaconObjectPayload :=
  withAssert (length == 1) (pmap .gasAlarmEvent (readMapU8 gasAlarmEventOfByte))

/-- Variant `MovementAlarmWithIlluminanceEvent` (id 0x000F, length 3). -/
def pMovementAlarmWithIlluminanceEvent (length : Nat) :
    List Nat → PRes MiBeaconObjectPayload :=
  withAssert (length == 3) (pmap .movementAlarmWithIlluminanceEvent readU24le)

/-- Variant `ToothbrushEvent` (id 0x0010, length 1 or 2; the score is present
iff the length is 2). -/
def pToothbrushEvent (length : Nat) : List Nat → PRes MiBeaconObjectPayload :=
  withAssert (length == 1 || length == 2)
    (pbind (readMapU8 toothbrushEventTypeOfByte) fun et =>
      if length == 2 then pmap (fun s => .toothbrushEvent et (some s)) readU8
      else ppure (.toothbrushEvent et none))

/-- Variant `DoorbellCameraEvent` (id 0x0011, length 1). -/
def pDoorbellCameraEvent (length : Nat) : List Nat → PRes MiBeaconObjectPayload :=
  withAssert (length == 1) (pmap .doorbellCameraEvent (readMapU8 doorbellCameraEventOfByte))

/-- Variant `WeighingEvent` (id 0x0012, length 3; declared before
`ButtonEvent` for the same id and length). -/
def pWeighingEvent (length : Nat) : List Nat → PRes MiBeaconObjectPayload :=
  withAssert (length == 3)
    (pbind readU16le fun w =>
      pmap (fun wt => .weighingEvent w wt) (readMapU8 weighingEventTypeOfByte))

/-- Variant `ButtonEvent` (id 0x0012, length 3; only reached when
`WeighingEvent` failed). -/
def pButtonEvent (length : Nat) : List Nat → PRes MiBeaconObjectPayload :=
  withAssert (length == 3)
    (pbind readU16le fun idx =>
      pmap (fun et => .buttonEvent idx et) (readMapU8 buttonEventTypeOfByte))

/-- Variant `Sleep` (id 0x1002, length 1). -/
def pSleep (length : Nat) : List Nat → PRes MiBeaconObjectPayload :=
  withAssert (length == 1) (pmap .sleep (readMapU8 sleepStateOfByte))

/-- Variant `Rssi` (id 0x1003, length 1). -/
def pRssi (length : Nat) : List Nat → PRes MiBeaconObjectPayload :=
  withAssert (length == 1) (pmap .rssi readU8)

/-- Variant `Temperature` (id 0x1004, length 2; a little-endian `i16` in
decicelsius). -/
def pTemperature (length : Nat) : List Nat → PRes MiBeaconObjectPayload :=
  withAssert (length == 2) (pmap .temperature readI16le)

/-- Variant `PowerAndTemperature` (id 0x1005, length 2). -/
def pPowerAndTemperature (length : Nat) : List Nat → PRes MiBeaconObjectPayload :=
  withAssert (length == 2)
    (pbind readU8 fun p => pmap (fun t => .powerAndTemperature p t) readU8)

/-- Variant `Humidity` (id 0x1006, length 2). -/
def pHumidity (length : Nat) : List Nat → PRes MiBeaconObjectPayload :=
  withAssert (length == 2) (pmap .humidity readU16le)

/-- Variant `Illuminance` (id 0x1007, length 3). -/
def pIlluminance (length : Nat) : List Nat → PRes MiBeaconObjectPayload :=
  withAssert (length == 3) (pmap .illuminance readU24le)

/-- Variant `Moisture` (id 0x1008, length 1). -/
def pMoisture (length : Nat) : List Nat → PRes MiBeaconObjectPayload :=
  withAssert (length == 1) (pmap .moisture readU8)

/-- Variant `Conductivity` (id 0x1009, length 2). -/
def pConductivity (length : Nat) : List Nat → PRes MiBeaconObjectPayload :=
  withAssert (length == 2) (pmap .conductivity readU16le)

/-- Variant `BatteryPower` (id 0x100A, length 1). -/
def pBatteryPower (length : Nat) : List Nat → PRes MiBeaconObjectPayload :=
  withAssert (length == 1) (pmap .batteryPower readU8)

/-- Variant `Lock` (id 0x100E, length 1). -/
def pLock (length : Nat) : List Nat → PRes MiBeaconObjectPayload :=
  withAssert (length == 1) (pmap (fun b => .lock (lockStateFromByte b)) readU8)

/-- Variant `Door` (id 0x100F, length 1). -/
def pDoor (length : Nat) : List Nat → PRes MiBeaconObjectPayload :=
  withAssert (length == 1) (pmap .door (readMapU8 doorStateOfByte))

/-- Variant `FormaldehydeConcentration` (id 0x1010, length 2; unit is
0.01 mg/m³). -/
def pFormaldehydeConcentration (length : Nat) : List Nat → PRes MiBeaconObjectPayload :=
  withAssert (length == 2) (pmap .formaldehydeConcentration readU16le)

/-- Variant `Binding` (id 0x1011, asserted length 2; note that the
`BindingState` field itself is a single `repr(u8)` byte). -/
def pBinding (length : Nat) : List Nat → PRes MiBeaconObjectPayload :=
  withAssert (length == 2) (pmap .binding (readMapU8 bindingStateOfByte))

/-- Variant `Switch` (id 0x1012, length 1). -/
def pSwitch (length : Nat) : List Nat → PRes MiBeaconObjectPayload :=
  withAssert (length == 1) (pmap .switchState (readMapU8 switchStateOfByte))

/-- Variant `RemainingSupplies` (id 0x1013, length 1). -/
def pRemainingSupplies (length : Nat) : List Nat → PRes MiBeaconObjectPayload :=
  withAssert (length == 1) (pmap .remainingSupplies readU8)

/-- Variant `WaterImmersion` (id 0x1014, length 1). -/
def pWaterImmersion (length : Nat) : List Nat → PRes MiBeaconObjectPayload :=
  withAssert (length == 1) (pmap .waterImmersion (readMapU8 waterImmersionStateOfByte))

/-- Variant `SmokeDetection` (id 0x1015, length 1). -/
def pSmokeDetection (length : Nat) : List Nat → PRes MiBeaconObjectPayload :=
  withAssert (length == 1) (pmap .smokeDetection (readMapU8 smokeDetectionStateOfByte))

/-- Variant `GasLeakageDetection` (id 0x1016, length 1). -/
def pGasLeakageDetection (length : Nat) : List Nat → PRes MiBeaconObjectPayload :=
  withAssert (length == 1)
    (pmap .gasLeakageDetection (readMapU8 gasLeakageDetectionStateOfByte))

/-- Variant `TimeWithoutMotion` (id 0x1017, length 4). -/
def pTimeWithoutMotion (length : Nat) : List Nat → PRes MiBeaconObjectPayload :=
  withAssert (length == 4) (pmap .timeWithoutMotion readU32le)

/-- Variant `LightIntensity` (id 0x1018, asserted length 2; the state field
itself is a single `repr(u8)` byte). -/
def pLightIntensity (length : Nat) : List Nat → PRes MiBeaconObjectPayload :=
  withAssert (length == 2) (pmap .lightIntensity (readMapU8 lightIntensityStateOfByte))

/-- Variant `DoorSensor` (id 0x1019, asserted length 2; the state field
itself is a single `repr(u8)` byte). -/
def pDoorSensor (length : Nat) : List Nat → PRes MiBeaconObjectPayload :=
  withAssert (length == 2) (pmap .doorSensor (readMapU8 doorSensorStateOfByte))

/-- Variant `Weight` (id 0x101A, length 2). -/
def pWeight (length : Nat) : List Nat → PRes MiBeaconObjectPayload :=
  withAssert (length == 2) (pmap .weight readU16le)

/-- Variant `MovementDetection` (id 0x101B, length 1). -/
def pMovementDetection (length : Nat) : List Nat → PRes MiBeaconObjectPayload :=
  withAssert (length == 1)
    (pmap .movementDetection (readMapU8 movementDetectionStateOfByte))

/-- Variant `SmartPillow` (id 0x101C, length 1; declared before
`FormaldehydeConcentrationNew` for the same id). -/
def pSmartPillow (length : Nat) : List Nat → PRes MiBeaconObjectPayload :=
  withAssert (length == 1) (pmap (fun b => .smartPillow (smartPillowStateOfByte b)) readU8)

/-- Variant `FormaldehydeConcentrationNew` (id 0x101C, length 2; unit is
0.001 mg/m³). -/
def pFormaldehydeConcentrationNew (length : Nat) : List Nat → PRes MiBeaconObjectPayload :=
  withAssert (length == 2) (pmap .formaldehydeConcentrationNew readU16le)

/-- Variant `BodyTemperature` (id 0x2000, length 5). -/
def pBodyTemperature (length : Nat) : List Nat → PRes MiBeaconObjectPayload :=
  withAssert (length == 5)
    (pbind readU16le fun skin =>
      pbind readU16le fun pcb =>
        pmap (fun bp => .bodyTemperature skin pcb bp) readU8)

/-- Variant `MiBand` (id 0x2001, length 4). -/
def pMiBand (length : Nat) : List Nat → PRes MiBeaconObjectPayload :=
  withAssert (length == 4)
    (pbind readU16le fun steps =>
      pbind (readMapU8 miBandSleepStateOfByte) fun sl =>
        pmap (fun r => .miBand steps sl r) readU8)

/-- Variant `RoidmiVacuumCleaner` (id 0x2002, length 2). -/
def pRoidmiVacuumCleaner (length : Nat) : List Nat → PRes MiBeaconObjectPayload :=
  withAssert (length == 2)
    (pbind (readMapU8 roidmiVacuumCleanerStateOfByte) fun st =>
      pmap (fun g => .roidmiVacuumCleaner st g) readU8)

/-- Variant `BlackPlusBracelet` (id 0x2003, length 4). -/
def pBlackPlusBracelet (length : Nat) : List Nat → PRes MiBeaconObjectPayload :=
  withAssert (length == 4)
    (pbind readU16le fun steps =>
      pbind readU8 fun hr =>
        pmap (fun st => .blackPlusBracelet steps hr st) readU8)

/-- Variant `FlowerAndGrassDetectorEvent` (id 0x3000, length 1). -/
def pFlowerAndGrassDetectorEvent (length : Nat) : List Nat → PRes MiBeaconObjectPayload :=
  withAssert (length == 1)
    (pmap .flowerAndGrassDetectorEvent (readMapU8 flowerAndGrassDetectorEventOfByte))

/-- Variant `QuingpingSensorLocationEvent` (id 0x3001, length 1). -/
def pQuingpingSensorLocationEvent (length : Nat) : List Nat → PRes MiBeaconObjectPayload :=
  withAssert (length == 1)
    (pmap .quingpingSensorLocationEvent (readMapU8 quingpingSensorLocationEventOfByte))

/-- Variant `QuingpingPomodoroEvent` (id 0x3002, length 1). -/
def pQuingpingPomodoroEvent (length : Nat) : List Nat → PRes MiBeaconObjectPayload :=
  withAssert (length == 1)
    (pmap .quingpingPomodoroEvent (readMapU8 quingpingPomodoroEventOfByte))

/-- Variant `XiaobelToothbrushEvent` (id 0x3003, length 5 or 6; the score is
present iff the length is 6). -/
def pXiaobelToothbrushEvent (length : Nat) : List Nat → PRes MiBeaconObjectPayload :=
  withAssert (length == 5 || length == 6)
    (pbind (readMapU8 toothbrushEventTypeOfByte) fun et =>
      pbind readU32le fun ts =>
        if length == 6 then pmap (fun s => .xiaobelToothbrushEvent et ts (some s)) readU8
        else ppure (.xiaobelToothbrushEvent et ts none))

/-- The final `Unknown` variant: read exactly `length` raw bytes
(`#[br(count = usize::from(length))] Vec<u8>`). -/
def pUnknown (length : Nat) : List Nat → PRes MiBeaconObjectPayload := fun buf =>
  if length ≤ buf.length then .ok (.unknown (buf.take length)) length else .eofErr

/-! ## The payload dispatcher and the object stream -/

/-- One known variant of the `MiBeaconObjectPayload` enum: the id of its
`#[br(pre_assert(id == ..))]`, the boolean length condition of its
`#[br(assert(..))]`, and its field reader. -/
structure VariantRule where
  vid : Nat
  lenOk : Nat → Bool
  read : Nat → List Nat → PRes MiBeaconObjectPayload

/-- Try the listed variants in declaration order: a variant whose
`pre_assert` id matches is attempted and, on failure, parsing falls through
to the remaining variants (the `binrw` enum strategy). -/
def dispatchRules : List VariantRule → Nat → Nat → List Nat → PRes MiBeaconObjectPayload
  | [], _, _, _ => .failErr
  | r :: rules, id, length, buf =>
      if id = r.vid then tryOr (r.read length buf) (dispatchRules rules id length buf)
      else dispatchRules rules id length buf

/-- The known variants of `MiBeaconObjectPayload`, in declaration order
(`WeighingEvent` before `ButtonEvent` for id 0x0012, `SmartPillow` before
`FormaldehydeConcentrationNew` for id 0x101C). -/
def mibeaconVariantTable : List VariantRule :=
  [⟨0x0001, fun length => length == 2, pConnectEvent⟩,
   ⟨0x0002, fun length => length == 2, pSimplePairingEvent⟩,
   ⟨0x0003, fun length => length == 2, pProximityEvent⟩,
   ⟨0x0004, fun length => length == 2, pKeepAwayEvent⟩,
   ⟨0x0005, fun length => length == 2, pLockEventDeprecated⟩,
   ⟨0x0006, fun length => length == 5, pFingerprintEvent⟩,
   ⟨0x0007, fun length => length == 1, pDoorEvent⟩,
   ⟨0x0008, fun length => length == 1 || length == 5, pArmingEvent⟩,
   ⟨0x0009, fun length => length == 2, pGestureEvent⟩,
   ⟨0x000A, fun length => length == 2, pBodyTemperatureEvent⟩,
   ⟨0x000B, fun length => length == 9, pLockEvent⟩,
   ⟨0x000C, fun length => length == 1, pFloodingAlarmEvent⟩,
   ⟨0x000D, fun length => length == 1, pSmokeAlarmEvent⟩,
   ⟨0x000E, fun length => length == 1, pGasAlarmEvent⟩,
   ⟨0x000F, fun length => length == 3, pMovementAlarmWithIlluminanceEvent⟩,
   ⟨0x0010, fun length => length == 1 || length == 2, pToothbrushEvent⟩,
   ⟨0x0011, fun length => length == 1, pDoorbellCameraEvent⟩,
   ⟨0x0012, fun length => length == 3, pWeighingEvent⟩,
   ⟨0x0012, fun length => length == 3, pButtonEvent⟩,
   ⟨0x1002, fun length => length == 1, pSleep⟩,
   ⟨0x1003, fun length => length == 1, pRssi⟩,
   ⟨0x1004, fun length => length == 2, pTemperature⟩,
   ⟨0x1005, fun length => length == 2, pPowerAndTemperature⟩,
   ⟨0x1006, fun length => length == 2, pHumidity⟩,
   ⟨0x1007, fun length => length == 3, pIlluminance⟩,
   ⟨0x1008, fun length => length == 1, pMoisture⟩,
   ⟨0x1009, fun length => length == 2, pConductivity⟩,
   ⟨0x100A, fun length => length == 1, pBatteryPower⟩,
   ⟨0x100E, fun length => length == 1, pLock⟩,
   ⟨0x100F, fun length => length == 1, pDoor⟩,
   ⟨0x1010, fun length => length == 2, pFormaldehydeConcentration⟩,
   ⟨0x1011, fun length => length == 2, pBinding⟩,
   ⟨0x1012, fun length => length == 1, pSwitch⟩,
   ⟨0x1013, fun length => length == 1, pRemainingSupplies⟩,
   ⟨0x1014, fun length => length == 1, pWaterImmersion⟩,
   ⟨0x1015, fun length => length == 1, pSmokeDetection⟩,
   ⟨0x1016, fun length => length == 1, pGasLeakageDetection⟩,
   ⟨0x1017, fun length => length == 4, pTimeWithoutMotion⟩,
   ⟨0x1018, fun length => length == 2, pLightIntensity⟩,
   ⟨0x1019, fun length => length == 2, pDoorSensor⟩,
   ⟨0x101A, fun length => length == 2, pWeight⟩,
   ⟨0x101B, fun length => length == 1, pMovementDetection⟩,
   ⟨0x101C, fun length => length == 1, pSmartPillow⟩,
   ⟨0x101C, fun length => length == 2, pFormaldehydeConcentrationNew⟩,
   ⟨0x2000, fun length => length == 5, pBodyTemperature⟩,
   ⟨0x2001, fun length => length == 4, pMiBand⟩,
   ⟨0x2002, fun length => length == 2, pRoidmiVacuumCleaner⟩,
   ⟨0x2003, fun length => length == 4, pBlackPlusBracelet⟩,
   ⟨0x3000, fun length => length == 1, pFlowerAndGrassDetectorEvent⟩,
   ⟨0x3001, fun length => length == 1, pQuingpingSensorLocationEvent⟩,
   ⟨0x3002, fun length => length == 1, pQuingpingPomodoroEvent⟩,
   ⟨0x3003, fun length => length == 5 || length == 6, pXiaobelToothbrushEvent⟩]

/-- All object ids that appear in a `#[br(pre_assert(id == ..))]` of some
known variant of `MiBeaconObjectPayload`. -/
def knownObjectIds : List Nat := mibeaconVariantTable.map (fun r => r.vid)

/-- Whether `length` is one of the exact valid lengths of a known variant
for `id` (`false` for every id outside the known set). -/
def validLen (id length : Nat) : Bool :=
  (mibeaconVariantTable.filter (fun r => r.vid == id)).any (fun r => r.lenOk length)

/-- Dispatch over the known variants in declaration order.  Any failure here
still falls through to the `Unknown` variant in `parsePayload`. -/
def parseKnown (id length : Nat) (buf : List Nat) : PRes MiBeaconObjectPayload :=
  dispatchRules mibeaconVariantTable id length buf

/-- Parse a `MiBeaconObjectPayload` given the object id and declared
length: try the known variants in declaration order, fall through to the
`Unknown` raw-bytes variant, and report any total failure as a non-EOF
`EnumErrors`. -/
def parsePayload (id length : Nat) (buf : List Nat) : PRes MiBeaconObjectPayload :=
  enumFinish (tryOr (parseKnown id length buf) (pUnknown length buf))

/-- MiBeacon Object: id (`u16` LE), declared length (`u8`), dispatched
payload. -/
structure MiBeaconObject where
  id : Nat
  length : Nat
  payload : MiBeaconObjectPayload

/-- Parse one `MiBeaconObject`: 2 id bytes, 1 length byte, then the payload
dispatch on the remaining buffer. -/
def parseObject (buf : List Nat) : PRes MiBeaconObject :=
  match buf with
  | idLo :: idHi :: len :: rest =>
      match parsePayload (idLo + 256 * idHi) len rest with
      | .ok p k => .ok { id := idLo + 256 * idHi, length := len, payload := p } (3 + k)
      | .eofErr => .eofErr
      | .failErr => .failErr
  | _ => .eofErr

/-- The `until_eof` loop with explicit fuel: parse objects until a read
fails; an EOF-classified failure ends the loop normally, any other failure
aborts the whole parse.  Fuel is only a termination device: each successful
object consumes at least 3 bytes, so `buf.length + 1` fuel can never be
exhausted before the buffer is. -/
def parseObjectsFuel : Nat → List Nat → Option (List MiBeaconObject)
  | 0, _ => none
  | fuel + 1, buf =>
      match parseObject buf with
      | .ok o k => (parseObjectsFuel fuel (buf.drop k)).map (o :: ·)
      | .eofErr => some []
      | .failErr => none

/-- Parse the object stream until the buffer is exhausted
(`parse_with = until_eof`). -/
def parseObjects (buf : List Nat) : Option (List MiBeaconObject) :=
  parseObjectsFuel (buf.length + 1) buf

/-! ## The MiBeacon header and service advertisement -/

/-- Frame Control Structure (a 2-byte `modular_bitfield` struct; bit 0 is the
least significant bit of the first byte on the wire). -/
structure FrameControl where
  reserved : Nat
  isEncrypted : Bool
  macIncluded : Bool
  capabilitiesIncluded : Bool
  objectsIncluded : Bool
  mesh : Bool
  registered : Bool
  solicited : Bool
  authMode : Nat
  version : Nat
deriving DecidableEq

/-- Decode the two frame-control bytes (in wire order). -/
def frameControlFromBytes (b0 b1 : Nat) : FrameControl :=
  { reserved := b0 % 8, isEncrypted := bitAt b0 3, macIncluded := bitAt b0 4,
    capabilitiesIncluded := bitAt b0 5, objectsIncluded := bitAt b0 6,
    mesh := bitAt b0 7, registered := bitAt b1 0, solicited := bitAt b1 1,
    authMode := b1 / 4 % 4, version := b1 / 16 % 16 }

/-- Capabilities (a 1-byte `modular_bitfield` struct).  The source's `io`
flag is named `ioCap` here. -/
structure MiBeaconCapabilities where
  connectable : Bool
  centralable : Bool
  encryptable : Bool
  bondAbility : Nat
  ioCap : Bool
  reserved : Nat
deriving DecidableEq

/-- Decode the capability byte. -/
def capabilitiesFromByte (b : Nat) : MiBeaconCapabilities :=
  { connectable := bitAt b 0, centralable := bitAt b 1, encryptable := bitAt b 2,
    bondAbility := b / 8 % 4, ioCap := bitAt b 5, reserved := b / 64 % 4 }

/-- Base I/O capability bits (a 1-byte `modular_bitfield` struct). -/
structure MiBeaconBaseIoCapabilities where
  canInput6Digits : Bool
  canInput6Characters : Bool
  canReadNfcTags : Bool
  canReadQrCodes : Bool
  canOutput6Digits : Bool
  canOutput6Characters : Bool
  canGenerateNfcTags : Bool
  canGenerateQrCode : Bool
deriving DecidableEq

/-- Decode the base I/O capability byte. -/
def baseIoCapabilitiesFromByte (b : Nat) : MiBeaconBaseIoCapabilities :=
  { canInput6Digits := bitAt b 0, canInput6Characters := bitAt b 1,
    canReadNfcTags := bitAt b 2, canReadQrCodes := bitAt b 3,
    canOutput6Digits := bitAt b 4, canOutput6Characters := bitAt b 5,
    canGenerateNfcTags := bitAt b 6, canGenerateQrCode := bitAt b 7 }

/-- I/O Capabilities: the base bits plus one reserved byte. -/
structure MiBeaconIoCapabilities where
  baseIoCapabilities : MiBeaconBaseIoCapabilities
  reserved : Nat
deriving DecidableEq

/-- Service Advertisement in the MiBeacon format.  The MAC address is kept
as its 6 raw bytes in wire order. -/
structure MiBeaconServiceAdvertisement where
  frameControl : FrameControl
  deviceId : Nat
  packetId : Nat
  macAddress : Option (List Nat)
  capabilities : Option MiBeaconCapabilities
  ioCapabilities : Option MiBeaconIoCapabilities
  objects : List MiBeaconObject

/-- Conditionally read the 6 MAC bytes (`#[br(if(mac_included))]`). -/
def readMac : Bool → List Nat → Option (Option (List Nat) × List Nat)
  | false, buf => some (none, buf)
  | true, buf =>
      if 6 ≤ buf.length then some (some (buf.take 6), buf.drop 6) else none

/-- Conditionally read the capability byte
(`#[br(if(capabilities_included))]`). -/
def readCaps : Bool → List Nat → Option (Option MiBeaconCapabilities × List Nat)
  | false, buf => some (none, buf)
  | true, [] => none
  | true, b :: rest => some (some (capabilitiesFromByte b), rest)

/-- The guard `capabilities.as_ref().is_some_and(|cap| cap.io())`. -/
def capsIoFlag : Option MiBeaconCapabilities → Bool
  | some c => c.ioCap
  | none => false

/-- Conditionally read the two I/O capability bytes. -/
def readIoCaps : Bool → List Nat → Option (Option MiBeaconIoCapabilities × List Nat)
  | false, buf => some (none, buf)
  | true, b0 :: b1 :: rest =>
      some (some { baseIoCapabilities := baseIoCapabilitiesFromByte b0, reserved := b1 }, rest)
  | true, _ => none

/-- Assemble the flag-gated tail of the advertisement after the fixed
5-byte prefix. -/
def assembleAdvertisement (fc : FrameControl) (deviceId packetId : Nat)
    (rest : List Nat) : Option MiBeaconServiceAdvertisement :=
  match readMac fc.macIncluded rest with
  | none => none
  | some (mac, rest2) =>
      match readCaps fc.capabilitiesIncluded rest2 with
      | none => none
      | some (caps, rest3) =>
          match readIoCaps (capsIoFlag caps) rest3 with
          | none => none
          | some (ioCaps, rest4) =>
              match (if fc.objectsIncluded then parseObjects rest4 else some []) with
              | none => none
              | some objs =>
                  some { frameControl := fc, deviceId := deviceId,
                         packetId := packetId, macAddress := mac,
                         capabilities := caps, ioCapabilities := ioCaps,
                         objects := objs }

/-- The embedding of `MiBeaconServiceAdvertisement::from_slice`: frame
control (2 bytes, wire order), device id (`u16` LE), packet id (`u8`), then the flag-gated fields.
`none` models `Err(ParseError)`. -/
def from_slice (buf : List Nat) : Option MiBeaconServiceAdvertisement :=
  match buf with
  | b0 :: b1 :: d0 :: d1 :: pid :: rest =>
      assembleAdvertisement (frameControlFromBytes b0 b1) (d0 + 256 * d1) pid rest
  | _ => none

/-! ## Sensor normalization (`to_sensor_events` / `iter_sensor_events`) -/

/-- The embedding of `MiBeaconObjectPayload::to_sensor_events`: map a
payload to its sensor
events; every payload without an explicit arm falls into the catch-all that
returns no events. -/
def to_sensor_events : MiBeaconObjectPayload → List SensorEvent
  | .temperature v =>
      [.numericMeasurement .temperature ((v : ℚ) / 10) .degreesCelsius]
  | .humidity v =>
      [.numericMeasurement .humidity ((v : ℚ) / 10) .percent]
  | .illuminance v =>
      [.numericMeasurement .illuminance (v : ℚ) .lux]
  | .moisture v =>
      [.numericMeasurement .moisture (v : ℚ) .percent]
  | .conductivity v =>
      [.numericMeasurement .conductivity (v : ℚ) .microsiemensPerCentimeter]
  | .formaldehydeConcentration v =>
      [.numericMeasurement .formaldehydeConcentration ((v : ℚ) / 100) .milligramPerCubicMeter]
  | .formaldehydeConcentrationNew v =>
      [.numericMeasurement .formaldehydeConcentration ((v : ℚ) / 1000) .milligramPerCubicMeter]
  | .batteryPower v =>
      [.numericMeasurement .batteryPower (v : ℚ) .percent]
  | .remainingSupplies v =>
      [.numericMeasurement .remainingSupplies (v : ℚ) .percent]
  | .weight v =>
      [.numericMeasurement .weight (v : ℚ) .kilogram]
  | _ => []

/-- The embedding of `MiBeaconServiceAdvertisement::iter_sensor_events`:
flat-map
`to_sensor_events` over the decoded objects, in order. -/
def iter_sensor_events (adv : MiBeaconServiceAdvertisement) : List SensorEvent :=
  adv.objects.flatMap (fun obj => to_sensor_events obj.payload)

/-! ## Mi Scale (`miscale.rs`) -/

/-- Weight unit resolved from the packet header flags. -/
inductive WeightUnit where
  | oneHundredPounds
  | oneHundredCatty
  | twoHundredKilograms
deriving DecidableEq

/-- Mi Scale packet header, v1 protocol variant (only the flags used by the
weight logic are modelled; they are plain booleans extracted by the
bitfield). -/
structure PacketHeaderV1 where
  weightUnitIsPounds : Bool
  weightUnitIsCatty : Bool
  weightStabilized : Bool
  weightRemoved : Bool
deriving DecidableEq

/-- Mi Scale packet, v1 protocol variant. -/
structure PacketV1 where
  header : PacketHeaderV1
  weight : Nat
deriving DecidableEq

/-- The embedding of `PacketV1::weight`: the raw weight and its unit, or
`none` when the
weight was removed.  Pounds take precedence over catty; otherwise the unit
is 200 g (kilogram mode). -/
def PacketV1.weightWithUnit (p : PacketV1) : Option (Nat × WeightUnit) :=
  if p.header.weightRemoved then none
  else some (p.weight,
    if p.header.weightUnitIsPounds then .oneHundredPounds
    else if p.header.weightUnitIsCatty then .oneHundredCatty
    else .twoHundredKilograms)

/-- Mi Scale packet header, v2 protocol variant. -/
structure PacketHeaderV2 where
  weightUnitIsPounds : Bool
  weightRemoved : Bool
  weightUnitIsCatty : Bool
  weightStabilized : Bool
  impedanceStabilized : Bool
deriving DecidableEq

/-- Mi Scale packet, v2 protocol variant. -/
structure PacketV2 where
  header : PacketHeaderV2
  impedance : Nat
  weight : Nat
deriving DecidableEq

/-- The embedding of `PacketV2::weight`: same unit-resolution logic as
v1. -/
def PacketV2.weightWithUnit (p : PacketV2) : Option (Nat × WeightUnit) :=
  if p.header.weightRemoved then none
  else some (p.weight,
    if p.header.weightUnitIsPounds then .oneHundredPounds
    else if p.header.weightUnitIsCatty then .oneHundredCatty
    else .twoHundredKilograms)

/-- Mi Scale packet, either protocol variant. -/
inductive MiScalePacket where
  | miScaleV1 (p : PacketV1)
  | miScaleV2 (p : PacketV2)
deriving DecidableEq

/-- The embedding of `MiScalePacket::weight`. -/
def MiScalePacket.weightWithUnit : MiScalePacket → Option (Nat × WeightUnit)
  | .miScaleV1 p => p.weightWithUnit
  | .miScaleV2 p => p.weightWithUnit

/-- The embedding of `MiScalePacket::weight_kilograms`: normalize the raw
weight to
kilograms with the per-unit factor (`×0.005`, `×0.0045359237`, `×0.01`). -/
def MiScalePacket.weight_kilograms (p : MiScalePacket) : Option ℚ :=
  p.weightWithUnit.map (fun wu =>
    match wu.2 with
    | .twoHundredKilograms => (wu.1 : ℚ) * 0.005
    | .oneHundredPounds => (wu.1 : ℚ) * 0.0045359237
    | .oneHundredCatty => (wu.1 : ℚ) * 0.01)

/-- A rule is sound when it can only match if its length condition holds:
otherwise the next parse attempt is used unchanged. -/
def RuleSound (r : VariantRule) : Prop :=
  ∀ (length : Nat) (buf : List Nat) (q : PRes MiBeaconObjectPayload),
    r.lenOk length = false → tryOr (r.read length buf) q = q

/-- Per-unit scale factor applied by `weight_kilograms` (named for the
statements below; the factors are the source's literals). -/
def weightScaleFactor : WeightUnit → ℚ
  | .twoHundredKilograms => 0.005
  | .oneHundredPounds => 0.0045359237
  | .oneHundredCatty => 0.01

/-! ## Concrete inputs used by the claims -/

/-- The HHCCJCY01 temperature reading from the repository's test data:
`71 20 98 00 B1 66 55 44 33 22 11 0D 04 10 02 EC 00`. -/
def hhccjcy01TemperatureReading : List Nat :=
  [0x71, 0x20, 0x98, 0x00, 0xB1, 0x66, 0x55, 0x44, 0x33, 0x22, 0x11, 0x0D,
   0x04, 0x10, 0x02, 0xEC, 0x00]

/-- The advertisement decoded from `hhccjcy01TemperatureReading`. -/
def hhccjcy01TemperatureAdvertisement : MiBeaconServiceAdvertisement :=
  { frameControl :=
      { reserved := 1, isEncrypted := false, macIncluded := true,
        capabilitiesIncluded := true, objectsIncluded := true, mesh := false,
        registered := false, solicited := false, authMode := 0, version := 2 },
    deviceId := 0x0098, packetId := 0xB1,
    macAddress := some [0x66, 0x55, 0x44, 0x33, 0x22, 0x11],
    capabilities := some
      { connectable := true, centralable := false, encryptable := true,
        bondAbility := 1, ioCap := false, reserved := 0 },
    ioCapabilities := none,
    objects := [{ id := 0x1004, length := 2, payload := .temperature 236 }] }

/-! ## Helper lemmas -/

/-- A successful `withAssert` implies the asserted condition held and the
inner read succeeded. -/
theorem withAssert_ok {α : Type} {b : Bool} {p : List Nat → PRes α}
    {buf : List Nat} {v : α} {k : Nat}
    (h : withAssert b p buf = .ok v k) : b = true ∧ p buf = .ok v k := by
  unfold withAssert at h
  cases hp : p buf <;> rw [hp] at h
  · cases hb : b <;> rw [hb] at h
    · simp at h
    · simp at h
      exact ⟨rfl, by rw [h.1, h.2]⟩
  · simp at h
  · simp at h

/-- A variant whose length assertion is false never matches, so the next
variant is tried. -/
theorem tryOr_withAssert_false {α : Type} {b : Bool} {p : List Nat → PRes α}
    {buf : List Nat} {q : PRes α} (hb : b = false) :
    tryOr (withAssert b p buf) q = q := by
  subst hb
  unfold withAssert tryOr
  cases p buf <;> simp

/-- Trying variants associates to the right. -/
theorem tryOr_assoc {α : Type} (a b c : PRes α) :
    tryOr (tryOr a b) c = tryOr a (tryOr b c) := by
  cases a <;> cases b <;> simp [tryOr]

/-- If an id matches no rule in the list, the dispatch over the list fails
(every `pre_assert` is false). -/
theorem dispatchRules_not_mem {rules : List VariantRule} {id length : Nat}
    {buf : List Nat} (h : id ∉ rules.map (fun r => r.vid)) :
    dispatchRules rules id length buf = .failErr := by
  induction rules with
  | nil => rfl
  | cons r rules ih =>
      simp only [List.map_cons, List.mem_cons, not_or] at h
      unfold dispatchRules
      rw [if_neg h.1]
      exact ih h.2

/-- An id outside the known set fails every known variant immediately. -/
theorem parseKnown_unknown_id {id length : Nat} {buf : List Nat}
    (h : id ∉ knownObjectIds) : parseKnown id length buf = .failErr :=
  dispatchRules_not_mem h

/-- Every known variant is guarded by `withAssert` with exactly its length
condition, so every rule of the table is sound. -/
theorem mibeaconRules_sound : ∀ r ∈ mibeaconVariantTable, RuleSound r := by
  intro r hr
  fin_cases hr <;> exact fun length buf q h => tryOr_withAssert_false h

/-- Dispatching over sound rules whose length conditions all fail for this
id falls through to the next parse attempt. -/
theorem dispatchRules_invalid_len {rules : List VariantRule} {id length : Nat}
    {buf : List Nat} {q : PRes MiBeaconObjectPayload}
    (hs : ∀ r ∈ rules, RuleSound r)
    (hlen : ∀ r ∈ rules, r.vid = id → r.lenOk length = false) :
    tryOr (dispatchRules rules id length buf) q = q := by
  induction rules with
  | nil => rfl
  | cons r rules ih =>
      unfold dispatchRules
      have ihs : ∀ x ∈ rules, RuleSound x :=
        fun x hx => hs x (List.mem_cons_of_mem _ hx)
      have ihl : ∀ x ∈ rules, x.vid = id → x.lenOk length = false :=
        fun x hx => hlen x (List.mem_cons_of_mem _ hx)
      by_cases hid : id = r.vid
      · rw [if_pos hid, tryOr_assoc,
          hs r (List.mem_cons_self r rules) length buf _
            (hlen r (List.mem_cons_self r rules) hid.symm)]
        exact ih ihs ihl
      · rw [if_neg hid]
        exact ih ihs ihl

/-- When the declared length matches none of the valid lengths of the
object id, every known variant fails and the dispatch falls through. -/
theorem parseKnown_invalid_len_tryOr {id length : Nat} {buf : List Nat}
    {q : PRes MiBeaconObjectPayload} (hlen : validLen id length = false) :
    tryOr (parseKnown id length buf) q = q := by
  apply dispatchRules_invalid_len mibeaconRules_sound
  intro r hr hv
  cases hx : r.lenOk length
  · rfl
  · exfalso
    have hvt : validLen id length = true := by
      unfold validLen
      rw [List.any_eq_true]
      exact ⟨r, List.mem_filter.mpr ⟨hr, by simp [hv]⟩, hx⟩
    rw [hvt] at hlen
    exact absurd hlen (by simp)

/-- The `Unknown` fallback succeeds whenever the buffer supplies the
declared number of bytes, returning exactly those bytes. -/
theorem pUnknown_ok {length : Nat} {buf : List Nat} (h : length ≤ buf.length) :
    pUnknown length buf = .ok (.unknown (buf.take length)) length := by
  unfold pUnknown
  rw [if_pos h]

/-- The `Unknown` fallback hits the end of the input when the buffer is too
short. -/
theorem pUnknown_eof {length : Nat} {buf : List Nat} (h : buf.length < length) :
    pUnknown length buf = .eofErr := by
  unfold pUnknown
  rw [if_neg (by omega)]

/-- An object whose payload dispatch fails aborts the whole `until_eof`
loop. -/
theorem parseObjects_fail {buf : List Nat} (h : parseObject buf = .failErr) :
    parseObjects buf = none := by
  unfold parseObjects parseObjectsFuel
  rw [h]

/-- A successfully parsed object consumes at least its 3-byte id/length
prefix, so the remaining buffer is strictly shorter. -/
theorem parseObject_ok_shrink {buf : List Nat} {o : MiBeaconObject} {k : Nat}
    (h : parseObject buf = .ok o k) : (buf.drop k).length < buf.length := by
  unfold parseObject at h
  split at h
  · split at h
    · injection h with h1 h2
      rw [← h2]
      simp only [List.length_drop, List.length_cons]
      omega
    · exact PRes.noConfusion h
    · exact PRes.noConfusion h
  · exact PRes.noConfusion h

/-- One step of the `until_eof` loop when an object parses. -/
theorem parseObjectsFuel_step {fuel : Nat} {buf : List Nat}
    {o : MiBeaconObject} {k : Nat} (h : parseObject buf = .ok o k) :
    parseObjectsFuel (fuel + 1) buf =
      (parseObjectsFuel fuel (buf.drop k)).map (o :: ·) := by
  conv_lhs => unfold parseObjectsFuel
  rw [h]

/-- One step of the `until_eof` loop at an EOF-classified failure: the loop
ends cleanly. -/
theorem parseObjectsFuel_eof {fuel : Nat} {buf : List Nat}
    (h : parseObject buf = .eofErr) : parseObjectsFuel (fuel + 1) buf = some [] := by
  unfold parseObjectsFuel
  rw [h]

/-- One step of the `until_eof` loop at a non-EOF failure: the loop aborts. -/
theorem parseObjectsFuel_fail {fuel : Nat} {buf : List Nat}
    (h : parseObject buf = .failErr) : parseObjectsFuel (fuel + 1) buf = none := by
  unfold parseObjectsFuel
  rw [h]

/-- The fuel argument is irrelevant above the buffer length (each parsed
object strictly shrinks the buffer), so the fuel-based loop computes the
source's fuel-free `until_eof`. -/
theorem parseObjectsFuel_congr : ∀ (f1 f2 : Nat) (buf : List Nat),
    buf.length < f1 → buf.length < f2 →
    parseObjectsFuel f1 buf = parseObjectsFuel f2 buf := by
  intro f1
  induction f1 with
  | zero =>
      intro f2 buf h1 h2
      exact absurd h1 (Nat.not_lt_zero _)
  | succ n1 ih =>
      intro f2 buf h1 h2
      cases f2 with
      | zero => exact absurd h2 (Nat.not_lt_zero _)
      | succ n2 =>
          cases hobj : parseObject buf with
          | ok o k =>
              have hs := parseObject_ok_shrink hobj
              rw [parseObjectsFuel_step hobj, parseObjectsFuel_step hobj,
                ih n2 (buf.drop k) (by omega) (by omega)]
          | eofErr => rw [parseObjectsFuel_eof hobj, parseObjectsFuel_eof hobj]
          | failErr => rw [parseObjectsFuel_fail hobj, parseObjectsFuel_fail hobj]

/-- Peeling one parsed object off the `until_eof` loop. -/
theorem parseObjects_step {buf : List Nat} {o : MiBeaconObject} {k : Nat}
    (h : parseObject buf = .ok o k) :
    parseObjects buf = (parseObjects (buf.drop k)).map (o :: ·) := by
  have hs := parseObject_ok_shrink h
  show parseObjectsFuel (buf.length + 1) buf = _
  rw [parseObjectsFuel_step h,
    parseObjectsFuel_congr buf.length ((buf.drop k).length + 1) (buf.drop k)
      (by omega) (by omega)]
  rfl

/-- The conditional MAC read yields a value exactly when the flag is set. -/
theorem readMac_isSome {b : Bool} {l r : List Nat} {m : Option (List Nat)}
    (h : readMac b l = some (m, r)) : m.isSome = b := by
  cases b
  · simp [readMac] at h
    rw [← h.1]
    rfl
  · simp [readMac] at h
    rw [← h.2.1]
    rfl

/-- The conditional capability read yields a value exactly when the flag is
set. -/
theorem readCaps_isSome {b : Bool} {l : List Nat} {r : List Nat}
    {m : Option MiBeaconCapabilities} (h : readCaps b l = some (m, r)) :
    m.isSome = b := by
  cases b
  · simp [readCaps] at h
    rw [← h.1]
    rfl
  · cases l with
    | nil => simp [readCaps] at h
    | cons x xs =>
        simp [readCaps] at h
        rw [← h.1]
        rfl

/-- The conditional I/O capability read yields a value exactly when the
guard is set. -/
theorem readIoCaps_isSome {b : Bool} {l : List Nat} {r : List Nat}
    {m : Option MiBeaconIoCapabilities} (h : readIoCaps b l = some (m, r)) :
    m.isSome = b := by
  cases b
  · simp [readIoCaps] at h
    rw [← h.1]
    rfl
  · cases l with
    | nil => simp [readIoCaps] at h
    | cons x xs =>
        cases xs with
        | nil => simp [readIoCaps] at h
        | cons y ys =>
            simp [readIoCaps] at h
            rw [← h.1]
            rfl

/-- Every successfully assembled advertisement satisfies the header-presence
invariants by construction. -/
theorem assembleAdvertisement_invariants {fc : FrameControl} {did pid : Nat}
    {rest : List Nat} {adv : MiBeaconServiceAdvertisement}
    (h : assembleAdvertisement fc did pid rest = some adv) :
    adv.frameControl = fc
  ∧ adv.macAddress.isSome = fc.macIncluded
  ∧ adv.capabilities.isSome = fc.capabilitiesIncluded
  ∧ adv.ioCapabilities.isSome = capsIoFlag adv.capabilities
  ∧ (adv.objects ≠ [] → fc.objectsIncluded = true) := by
  unfold assembleAdvertisement at h
  split at h
  · simp at h
  rename_i mac rest2 hmac
  split at h
  · simp at h
  rename_i caps rest3 hcaps
  split at h
  · simp at h
  rename_i ioCaps rest4 hio
  split at h
  · simp at h
  rename_i objs hobjs
  injection h with h
  subst h
  refine ⟨rfl, readMac_isSome hmac, readCaps_isSome hcaps, readIoCaps_isSome hio, ?_⟩
  intro hne
  cases hfc : fc.objectsIncluded
  · rw [hfc] at hobjs
    simp at hobjs
    exact absurd hobjs hne
  · rfl

/-! ## Claims -/

/-- Claim C1 counterexample: an advertisement containing an object with the
known id 0x1004 (Temperature, valid length 2) but declared length 3 does
*not* fail to decode — the `assert(length == 2)` merely fails the
`Temperature` variant and parsing falls through to the generic raw-bytes
`Unknown` variant, which consumes the 3 declared bytes; the whole decode
succeeds. -/
theorem c1_counterexample :
    from_slice [0x40, 0x00, 0x98, 0x00, 0xB1, 0x04, 0x10, 0x03, 0xEC, 0x00, 0xAA] =
      some { frameControl :=
               { reserved := 0, isEncrypted := false, macIncluded := false,
                 capabilitiesIncluded := false, objectsIncluded := true,
                 mesh := false, registered := false, solicited := false,
                 authMode := 0, version := 0 },
             deviceId := 0x0098, packetId := 0xB1, macAddress := none,
             capabilities := none, ioCapabilities := none,
             objects := [{ id := 0x1004, length := 3,
                           payload := .unknown [0xEC, 0x00, 0xAA] }] } := rfl

/-- Claim C1 (amended): for every object whose id is in the known set but
whose declared length matches none of that id's exact valid lengths, the
payload dispatch does not abort with a malformed-object error; it falls back
to the generic raw-bytes case holding exactly `length` bytes, succeeding
whenever the buffer supplies them. -/
theorem c1_known_id_invalid_length_falls_back (id length : Nat)
    (buf : List Nat) (hid : id ∈ knownObjectIds)
    (hlen : validLen id length = false) (hbuf : length ≤ buf.length) :
    parsePayload id length buf = .ok (.unknown (buf.take length)) length := by
  unfold parsePayload
  rw [parseKnown_invalid_len_tryOr hlen, pUnknown_ok hbuf]
  rfl

/-- Claim C1 witness: the fallback at id 0x1004 with invalid length 3. -/
theorem c1_witness :
    parsePayload 0x1004 3 [0xEC, 0x00, 0xAA] = .ok (.unknown [0xEC, 0x00, 0xAA]) 3 :=
  c1_known_id_invalid_length_falls_back 0x1004 3 [0xEC, 0x00, 0xAA]
    (by decide) (by decide) (by decide)

/-- Claim C2: the 17-byte buffer `71 20 98 00 B1 66 55 44 33 22 11 0D 04 10
02 EC 00` decodes successfully and its sensor-event traversal yields exactly
one numeric temperature measurement of 23.6 °C (raw little-endian `i16` 236
divided by 10); in general every `Temperature` payload with raw value `v`
yields exactly one such event with value `v / 10`. -/
theorem c2_temperature_end_to_end :
    (from_slice hhccjcy01TemperatureReading).map iter_sensor_events =
      some [.numericMeasurement .temperature (23.6 : ℚ) .degreesCelsius]
  ∧ ∀ v : Int, to_sensor_events (.temperature v) =
      [.numericMeasurement .temperature ((v : ℚ) / 10) .degreesCelsius] := by
  constructor
  · have h1 : (from_slice hhccjcy01TemperatureReading).map iter_sensor_events =
        some [.numericMeasurement .temperature (((236 : Int) : ℚ) / 10)
          .degreesCelsius] := rfl
    rw [h1]
    norm_num
  · intro v
    rfl

/-- Claim C3 counterexample: normalizing a combined power-and-temperature
payload yields *no* sensor events (the normalizer has no arm for
`PowerAndTemperature`; it hits the catch-all that returns an empty vector),
not one binary plus one numeric event. -/
theorem c3_counterexample :
    to_sensor_events (.powerAndTemperature 0x01 0x19) = [] := rfl

/-- Claim C3 (amended): the combined power-and-temperature payload (id
0x1005, length 2) decodes, but its normalization produces no sensor events at
all — it falls into the normalizer's unhandled default case. -/
theorem c3_power_and_temperature_yields_no_events :
    (∀ (b0 b1 : Nat) (rest : List Nat),
        parsePayload 0x1005 2 (b0 :: b1 :: rest) =
          .ok (.powerAndTemperature b0 b1) 2)
  ∧ ∀ p t : Nat, to_sensor_events (.powerAndTemperature p t) = [] :=
  ⟨fun _ _ _ => rfl, fun _ _ => rfl⟩

/-- Claim C4: for every object id outside the known set, the payload
dispatch succeeds whenever the buffer supplies the declared number of bytes,
yielding the generic raw-bytes case holding exactly `length` bytes, and the
normalizer maps that payload to the empty event sequence. -/
theorem c4_unknown_id_decodes_to_raw_bytes (id length : Nat) (buf : List Nat)
    (hid : id ∉ knownObjectIds) (hbuf : length ≤ buf.length) :
    parsePayload id length buf = .ok (.unknown (buf.take length)) length
  ∧ (buf.take length).length = length
  ∧ to_sensor_events (.unknown (buf.take length)) = [] := by
  refine ⟨?_, ?_, rfl⟩
  · unfold parsePayload
    rw [parseKnown_unknown_id hid]
    show enumFinish (pUnknown length buf) = _
    rw [pUnknown_ok hbuf]
    rfl
  · rw [List.length_take]
    omega

/-- Claim C4 witness: id 0x9999 with declared length 2. -/
theorem c4_witness :
    parsePayload 0x9999 2 [7, 8, 9] = .ok (.unknown [7, 8]) 2
  ∧ ([7, 8] : List Nat).length = 2
  ∧ to_sensor_events (.unknown [7, 8]) = [] :=
  c4_unknown_id_decodes_to_raw_bytes 0x9999 2 [7, 8, 9] (by decide) (by decide)

/-- Claim C5 counterexample: at raw value 0 the two formaldehyde ids yield
the *same* absolute concentration (both 0 mg/m³), so "the two ids yield
different absolute concentrations" fails for v = 0. -/
theorem c5_counterexample :
    to_sensor_events (.formaldehydeConcentration 0) =
      to_sensor_events (.formaldehydeConcentrationNew 0) := by
  norm_num [to_sensor_events]

/-- Claim C5 (amended): id 0x1010 normalizes to `v / 100` and id 0x101C
(length 2) to `v / 1000`, both in mg/m³; the former is always ten times the
latter, and for every *nonzero* raw value the two ids yield different
absolute concentrations. -/
theorem c5_formaldehyde_scaling (v : Nat) (hv : v ≠ 0) :
    to_sensor_events (.formaldehydeConcentration v) =
      [.numericMeasurement .formaldehydeConcentration ((v : ℚ) / 100)
        .milligramPerCubicMeter]
  ∧ to_sensor_events (.formaldehydeConcentrationNew v) =
      [.numericMeasurement .formaldehydeConcentration ((v : ℚ) / 1000)
        .milligramPerCubicMeter]
  ∧ (v : ℚ) / 100 = 10 * ((v : ℚ) / 1000)
  ∧ (v : ℚ) / 100 ≠ (v : ℚ) / 1000 := by
  refine ⟨rfl, rfl, by ring, ?_⟩
  intro heq
  field_simp at heq
  rcases heq with h | h
  · exact absurd h (by norm_num)
  · exact hv (by exact_mod_cast h)

/-- Claim C5 witness: the instantiation at raw value 1. -/
theorem c5_witness :
    to_sensor_events (.formaldehydeConcentration 1) =
      [.numericMeasurement .formaldehydeConcentration (((1 : Nat) : ℚ) / 100)
        .milligramPerCubicMeter]
  ∧ to_sensor_events (.formaldehydeConcentrationNew 1) =
      [.numericMeasurement .formaldehydeConcentration (((1 : Nat) : ℚ) / 1000)
        .milligramPerCubicMeter]
  ∧ ((1 : Nat) : ℚ) / 100 = 10 * (((1 : Nat) : ℚ) / 1000)
  ∧ ((1 : Nat) : ℚ) / 100 ≠ ((1 : Nat) : ℚ) / 1000 :=
  c5_formaldehyde_scaling 1 (by decide)

/-- Claim C6 counterexample: two decodes that the claim says must fail, but
that succeed.  First, an advertisement whose last object declares length 2
(id 0x1011, Binding) while supplying only 1 payload byte: the `Binding`
variant reads just its single `repr(u8)` state byte, the
`assert(length == 2)` passes, and decoding succeeds.  Second, an
advertisement with one well-formed object followed by a single trailing
byte, a remainder smaller than the 3-byte object prefix: the `until_eof`
loop classifies the failed id read as a clean end of input, silently drops
the byte, and decoding succeeds with the partial trailing record ignored
rather than failing. -/
theorem c6_counterexample :
    from_slice [0x40, 0x00, 0x98, 0x00, 0xB1, 0x11, 0x10, 0x02, 0x00] =
      some { frameControl :=
               { reserved := 0, isEncrypted := false, macIncluded := false,
                 capabilitiesIncluded := false, objectsIncluded := true,
                 mesh := false, registered := false, solicited := false,
                 authMode := 0, version := 0 },
             deviceId := 0x0098, packetId := 0xB1, macAddress := none,
             capabilities := none, ioCapabilities := none,
             objects := [{ id := 0x1011, length := 2,
                           payload := .binding .unbound }] }
  ∧ from_slice [0x40, 0x00, 0x98, 0x00, 0xB1, 0x04, 0x10, 0x02, 0xEC, 0x00, 0xFF] =
      some { frameControl :=
               { reserved := 0, isEncrypted := false, macIncluded := false,
                 capabilitiesIncluded := false, objectsIncluded := true,
                 mesh := false, registered := false, solicited := false,
                 authMode := 0, version := 0 },
             deviceId := 0x0098, packetId := 0xB1, macAddress := none,
             capabilities := none, ioCapabilities := none,
             objects := [{ id := 0x1004, length := 2,
                           payload := .temperature 236 }] } :=
  ⟨rfl, rfl⟩

/-- Claim C6 (amended): a truncated object whose id is outside the known set
aborts the whole advertisement decode, for every header shape and after any
number of well-formed preceding objects, and short header reads also abort
it.  In order: (1) the object stream fails at a truncated unknown-id
object; (2) an object-stream failure propagates past any earlier
successfully parsed object; (3) an object-stream failure fails `from_slice`
under every flag-gated header combination; (4) a buffer shorter than the
fixed 5-byte prefix fails; (5) a truncated MAC read fails.  The exceptions
forced by the counterexample: a known-id variant that reads fewer bytes
than its declared length can succeed instead, and — (6), (7) — a trailing
remainder of one or two bytes, too short for the 3-byte object prefix, is
silently dropped by the `until_eof` loop rather than failing. -/
theorem c6_truncated_object_aborts_decode :
    (∀ (idLo idHi len : Nat) (tail : List Nat),
        idLo + 256 * idHi ∉ knownObjectIds → tail.length < len →
        parseObjects (idLo :: idHi :: len :: tail) = none)
  ∧ (∀ (buf : List Nat) (o : MiBeaconObject) (k : Nat),
        parseObject buf = .ok o k → parseObjects (buf.drop k) = none →
        parseObjects buf = none)
  ∧ (∀ (b0 b1 d0 d1 pid : Nat) (rest rest2 rest3 rest4 : List Nat)
        (mac : Option (List Nat)) (caps : Option MiBeaconCapabilities)
        (ioCaps : Option MiBeaconIoCapabilities),
        readMac (frameControlFromBytes b0 b1).macIncluded rest =
          some (mac, rest2) →
        readCaps (frameControlFromBytes b0 b1).capabilitiesIncluded rest2 =
          some (caps, rest3) →
        readIoCaps (capsIoFlag caps) rest3 = some (ioCaps, rest4) →
        (frameControlFromBytes b0 b1).objectsIncluded = true →
        parseObjects rest4 = none →
        from_slice (b0 :: b1 :: d0 :: d1 :: pid :: rest) = none)
  ∧ (∀ buf : List Nat, buf.length < 5 → from_slice buf = none)
  ∧ (∀ (b0 b1 d0 d1 pid : Nat) (rest : List Nat),
        (frameControlFromBytes b0 b1).macIncluded = true → rest.length < 6 →
        from_slice (b0 :: b1 :: d0 :: d1 :: pid :: rest) = none)
  ∧ (∀ x : Nat, parseObjects [x] = some [])
  ∧ ∀ x y : Nat, parseObjects [x, y] = some [] := by
  refine ⟨?_, ?_, ?_, ?_, ?_, fun x => rfl, fun x y => rfl⟩
  · intro idLo idHi len tail hid htail
    have hp : parsePayload (idLo + 256 * idHi) len tail = .failErr := by
      unfold parsePayload
      rw [parseKnown_unknown_id hid]
      show enumFinish (pUnknown len tail) = _
      rw [pUnknown_eof htail]
      rfl
    apply parseObjects_fail
    simp only [parseObject]
    rw [hp]
  · intro buf o k h hnone
    rw [parseObjects_step h, hnone]
    rfl
  · intro b0 b1 d0 d1 pid rest rest2 rest3 rest4 mac caps ioCaps hmac hcaps
      hioc hflag hnone
    simp [from_slice, assembleAdvertisement, hmac, hcaps, hioc, hflag, hnone]
  · intro buf h
    rcases buf with _ | ⟨a, _ | ⟨b, _ | ⟨c, _ | ⟨d, _ | ⟨e, rest⟩⟩⟩⟩⟩
    all_goals first
      | rfl
      | (simp at h; omega)
  · intro b0 b1 d0 d1 pid rest hflag hlen
    have hm : readMac (frameControlFromBytes b0 b1).macIncluded rest = none := by
      rw [hflag]
      show (if 6 ≤ rest.length then some (some (rest.take 6), rest.drop 6)
        else none) = none
      rw [if_neg (by omega)]
    simp [from_slice, assembleAdvertisement, hm]

/-- Claim C6 witness: concrete instances for every proven part: a truncated
unknown-id object alone, the same after a well-formed temperature object, the
same under a full MAC-and-capabilities header, a 3-byte buffer, a buffer
whose MAC field is cut short, and the dropped 1- and 2-byte remainders. -/
theorem c6_witness :
    parseObjects [0x99, 0x99, 0x01] = none
  ∧ parseObjects [0x04, 0x10, 0x02, 0xEC, 0x00, 0x99, 0x99, 0x01] = none
  ∧ from_slice [0x71, 0x20, 0x98, 0x00, 0xB1, 0x66, 0x55, 0x44, 0x33, 0x22,
      0x11, 0x0D, 0x99, 0x99, 0x01] = none
  ∧ from_slice [1, 2, 3] = none
  ∧ from_slice [0x71, 0x20, 0x98, 0x00, 0xB1, 0x66, 0x55] = none
  ∧ parseObjects [0xFF] = some []
  ∧ parseObjects [0x04, 0x10] = some [] := by
  obtain ⟨p1, p2, p3, p4, p5, p6, p7⟩ := c6_truncated_object_aborts_decode
  refine ⟨p1 0x99 0x99 0x01 [] (by decide) (by decide), ?_, ?_, ?_, ?_,
    p6 0xFF, p7 0x04 0x10⟩
  · exact p2 [0x04, 0x10, 0x02, 0xEC, 0x00, 0x99, 0x99, 0x01]
      { id := 0x1004, length := 2, payload := .temperature 236 } 5 rfl
      (p1 0x99 0x99 0x01 [] (by decide) (by decide))
  · exact p3 0x71 0x20 0x98 0x00 0xB1
      [0x66, 0x55, 0x44, 0x33, 0x22, 0x11, 0x0D, 0x99, 0x99, 0x01]
      [0x0D, 0x99, 0x99, 0x01] [0x99, 0x99, 0x01] [0x99, 0x99, 0x01]
      (some [0x66, 0x55, 0x44, 0x33, 0x22, 0x11])
      (some (capabilitiesFromByte 0x0D)) none rfl rfl rfl rfl
      (p1 0x99 0x99 0x01 [] (by decide) (by decide))
  · exact p4 [1, 2, 3] (by decide)
  · exact p5 0x71 0x20 0x98 0x00 0xB1 [0x66, 0x55] rfl (by decide)

/-- Claim C7: every successfully decoded advertisement satisfies the four
header-presence invariants: the MAC address is present iff `mac_included`,
the capabilities are present iff `capabilities_included`, the I/O
capabilities are present iff the capabilities are present with their `io`
flag set, and the object list is non-empty only if `objects_included`. -/
theorem c7_header_invariants (buf : List Nat)
    (adv : MiBeaconServiceAdvertisement) (h : from_slice buf = some adv) :
    adv.macAddress.isSome = adv.frameControl.macIncluded
  ∧ adv.capabilities.isSome = adv.frameControl.capabilitiesIncluded
  ∧ adv.ioCapabilities.isSome = capsIoFlag adv.capabilities
  ∧ (adv.objects ≠ [] → adv.frameControl.objectsIncluded = true) := by
  unfold from_slice at h
  split at h
  · obtain ⟨hfc, h1, h2, h3, h4⟩ := assembleAdvertisement_invariants h
    rw [hfc]
    exact ⟨h1, h2, h3, h4⟩
  · simp at h

/-- Claim C7 witness: the invariants at the decoded HHCCJCY01 temperature
advertisement. -/
theorem c7_witness :
    hhccjcy01TemperatureAdvertisement.macAddress.isSome =
      hhccjcy01TemperatureAdvertisement.frameControl.macIncluded
  ∧ hhccjcy01TemperatureAdvertisement.capabilities.isSome =
      hhccjcy01TemperatureAdvertisement.frameControl.capabilitiesIncluded
  ∧ hhccjcy01TemperatureAdvertisement.ioCapabilities.isSome =
      capsIoFlag hhccjcy01TemperatureAdvertisement.capabilities
  ∧ (hhccjcy01TemperatureAdvertisement.objects ≠ [] →
      hhccjcy01TemperatureAdvertisement.frameControl.objectsIncluded = true) :=
  c7_header_invariants hhccjcy01TemperatureReading
    hhccjcy01TemperatureAdvertisement rfl

/-- Claim C8: weight normalization multiplies the raw weight by exactly
0.005 in kilogram mode (200 g per unit), 0.0045359237 with the pound flag,
and 0.01 with the catty flag; in particular raw weight 1000 in kilogram mode
yields exactly 5 kg, and with the pound flag 1000 × 0.0045359237 kg. -/
theorem c8_weight_normalization :
    (∀ (p : MiScalePacket) (w : Nat) (u : WeightUnit),
        p.weightWithUnit = some (w, u) →
        p.weight_kilograms = some ((w : ℚ) * weightScaleFactor u))
  ∧ (MiScalePacket.miScaleV1
      { header := { weightUnitIsPounds := false, weightUnitIsCatty := false,
                    weightStabilized := true, weightRemoved := false },
        weight := 1000 }).weight_kilograms = some 5
  ∧ (MiScalePacket.miScaleV1
      { header := { weightUnitIsPounds := true, weightUnitIsCatty := false,
                    weightStabilized := true, weightRemoved := false },
        weight := 1000 }).weight_kilograms = some ((1000 : ℚ) * 0.0045359237) := by
  refine ⟨?_, ?_, ?_⟩
  · intro p w u h
    unfold MiScalePacket.weight_kilograms
    rw [h]
    cases u <;> rfl
  · have h1 : (MiScalePacket.miScaleV1
        { header := { weightUnitIsPounds := false, weightUnitIsCatty := false,
                      weightStabilized := true, weightRemoved := false },
          weight := 1000 }).weight_kilograms =
        some (((1000 : Nat) : ℚ) * 0.005) := rfl
    rw [h1]
    norm_num
  · have h2 : (MiScalePacket.miScaleV1
        { header := { weightUnitIsPounds := true, weightUnitIsCatty := false,
                      weightStabilized := true, weightRemoved := false },
          weight := 1000 }).weight_kilograms =
        some (((1000 : Nat) : ℚ) * 0.0045359237) := rfl
    rw [h2]
    norm_num

/-- Claim C8 witness: the kilogram-mode packet with raw weight 1000. -/
theorem c8_witness :
    (MiScalePacket.miScaleV1
      { header := { weightUnitIsPounds := false, weightUnitIsCatty := false,
                    weightStabilized := true, weightRemoved := false },
        weight := 1000 }).weight_kilograms =
      some ((1000 : ℚ) * weightScaleFactor .twoHundredKilograms) :=
  c8_weight_normalization.1 _ 1000 .twoHundredKilograms (by decide)

/-- Claim C9: the sensor-event traversal of a successfully decoded
advertisement is a pure function of the immutable decoded structure, so
calling it twice returns two equal sequences in the same order. -/
theorem c9_sensor_events_restartable (buf : List Nat)
    (adv : MiBeaconServiceAdvertisement) (h : from_slice buf = some adv) :
    iter_sensor_events adv = iter_sensor_events adv := rfl

/-- Claim C9 witness: re-iteration over the decoded HHCCJCY01 temperature
advertisement. -/
theorem c9_witness :
    from_slice hhccjcy01TemperatureReading =
      some hhccjcy01TemperatureAdvertisement
  ∧ iter_sensor_events hhccjcy01TemperatureAdvertisement =
      iter_sensor_events hhccjcy01TemperatureAdvertisement :=
  ⟨rfl,
   c9_sensor_events_restartable hhccjcy01TemperatureReading
     hhccjcy01TemperatureAdvertisement rfl⟩

/-- Claim C10: for an object with id 0x0012 and length 3 whose weighing
event type byte decodes successfully, the payload is always the
`WeighingEvent` variant — `ButtonEvent`, declared second for the same id and
length, is never produced, because variants are tried in declaration order
and `WeighingEvent` is declared first. -/
theorem c10_weighing_event_shadows_button_event (w0 w1 t : Nat)
    (rest : List Nat) (wt : WeighingEventType)
    (h : weighingEventTypeOfByte t = some wt) :
    parsePayload 0x0012 3 (w0 :: w1 :: t :: rest) =
      .ok (.weighingEvent (w0 + 256 * w1) wt) 3 := by
  by_cases h0 : t = 0
  · subst h0
    simp [weighingEventTypeOfByte] at h
    subst h
    rfl
  · by_cases h1 : t = 1
    · subst h1
      simp [weighingEventTypeOfByte] at h
      subst h
      rfl
    · by_cases h2 : t = 2
      · subst h2
        simp [weighingEventTypeOfByte] at h
        subst h
        rfl
      · exfalso
        simp [weighingEventTypeOfByte, h0, h1, h2] at h

/-- Claim C10 witness: weight bytes 0, weighing type byte 0. -/
theorem c10_witness :
    parsePayload 0x0012 3 [0, 0, 0] = .ok (.weighingEvent 0 .currentWeight) 3 :=
  c10_weighing_event_shadows_button_event 0 0 0 [] .currentWeight (by decide)
